import Mathlib

/-!
Shallow embedding of the skywire hypervisor's node registry, context
resolver chain, and dispatch/aggregation engine
(src/pkg/hypervisor/hypervisor.go), together with theorems settling the
spec claims about them.

External collaborators (the dmsg transport, the visor RPC client, JSON
serialization) are modelled as opaque data: an RPC call is represented by
an oracle giving its outcome, and payload types carry only the fields the
code itself inspects plus an opaque remainder.
-/

namespace Hypervisor

/-- Node public key (cipher.PubKey): an opaque identity value with
decidable equality; modelled as Nat. -/
abbrev PubKey := Nat

/-- dmsg.Addr: public key plus port. -/
structure Addr where
  pk : PubKey
  port : Nat
deriving DecidableEq, Repr

/-- VisorConn: the connection handle stored in the registry. The RPC
client and pty-UI capabilities are opaque references; we model the bundle
by its address plus an identifier distinguishing distinct handles. -/
structure VisorConn where
  addr : Addr
  rpcId : Nat
deriving DecidableEq, Repr

/-- The Hypervisor.visors map: map[cipher.PubKey]VisorConn, modelled with
Go map semantics as a partial function from keys to values. -/
def Registry := PubKey → Option VisorConn

/-- make(map[cipher.PubKey]VisorConn): the empty map. -/
def emptyRegistry : Registry := fun _ => none

/-- hv.visors[pk] = conn (the write in ServeRPC's accept loop, performed
under hv.mu.Lock): Go map assignment, replacing any previous entry. -/
def regInsert (reg : Registry) (k : PubKey) (v : VisorConn) : Registry :=
  fun q => if q = k then some v else reg q

/-- hv.visorConn(pk): conn, ok := hv.visors[pk] under hv.mu.RLock —
returns the handle and a found flag, never an error. -/
def regLookup (reg : Registry) (k : PubKey) : Option VisorConn :=
  reg k

/-- The registry state after a sequence of accept-loop inserts applied to
the fresh map, in order. -/
def applyInserts (ops : List (PubKey × VisorConn)) : Registry :=
  ops.foldl (fun r op => regInsert r op.1 op.2) emptyRegistry

theorem foldl_regInsert_not_mem (l : List (PubKey × VisorConn))
    (acc : Registry) (k : PubKey) (h : ∀ p ∈ l, p.1 ≠ k) :
    (l.foldl (fun r op => regInsert r op.1 op.2) acc) k = acc k := by
  induction l generalizing acc with
  | nil => rfl
  | cons p l ih =>
    have hp : p.1 ≠ k := h p (List.mem_cons_self p l)
    have hl : ∀ q ∈ l, q.1 ≠ k := fun q hq => h q (List.mem_cons_of_mem p hq)
    simp only [List.foldl_cons]
    rw [ih _ hl]
    unfold regInsert
    exact if_neg (fun hkp => hp hkp.symm)

/-- Claim C1: for every sequence of registry inserts, a lookup of public
key k after the last insert of (k, v) returns handle v (last-writer-wins,
re-inserting a known key replaces the prior handle), and a lookup of a key
never inserted returns not-found (none) rather than an error. -/
theorem registry_last_writer_wins (ops : List (PubKey × VisorConn)) (k : PubKey) :
    (∀ v pre post, ops = pre ++ (k, v) :: post → (∀ p ∈ post, p.1 ≠ k) →
      regLookup (applyInserts ops) k = some v) ∧
    ((∀ p ∈ ops, p.1 ≠ k) → regLookup (applyInserts ops) k = none) := by
  constructor
  · intro v pre post heq hpost
    subst heq
    unfold applyInserts regLookup
    rw [List.foldl_append, List.foldl_cons]
    rw [foldl_regInsert_not_mem post _ k hpost]
    simp [regInsert]
  · intro hnone
    unfold applyInserts regLookup
    rw [foldl_regInsert_not_mem ops _ k hnone]
    rfl

/-- Witness for C1: after inserts (1, hA), (2, hB), (1, hC), lookup of 1
returns hC (the re-insert replaced hA) and lookup of 5 returns none. -/
theorem registry_last_writer_wins_witness :
    regLookup (applyInserts [(1, ⟨⟨1, 10⟩, 0⟩), (2, ⟨⟨2, 20⟩, 1⟩), (1, ⟨⟨1, 11⟩, 2⟩)]) 1
      = some ⟨⟨1, 11⟩, 2⟩ ∧
    regLookup (applyInserts [(1, ⟨⟨1, 10⟩, 0⟩), (2, ⟨⟨2, 20⟩, 1⟩), (1, ⟨⟨1, 11⟩, 2⟩)]) 5
      = none := by
  constructor
  · exact (registry_last_writer_wins
      [(1, ⟨⟨1, 10⟩, 0⟩), (2, ⟨⟨2, 20⟩, 1⟩), (1, ⟨⟨1, 11⟩, 2⟩)] 1).1
      ⟨⟨1, 11⟩, 2⟩ [(1, ⟨⟨1, 10⟩, 0⟩), (2, ⟨⟨2, 20⟩, 1⟩)] [] rfl (by simp)
  · exact (registry_last_writer_wins
      [(1, ⟨⟨1, 10⟩, 0⟩), (2, ⟨⟨2, 20⟩, 1⟩), (1, ⟨⟨1, 11⟩, 2⟩)] 5).2
      (by simp)

/-- visor.Summary: the summary payload returned by the Summary RPC. The
code only ever sets its PubKey field (the fallback value in getVisors);
all other fields are opaque, collected in rest (Go zero value is 0). -/
structure Summary where
  pubKey : PubKey
  rest : Nat
deriving DecidableEq, Repr

/-- summaryResp: one slot of the fleet-summary result — the visor's
address (TCPAddr is c.Addr.String(); we keep the Addr value), the Online
flag (err == nil), and the summary payload. -/
structure SummaryResp where
  tcpAddr : Addr
  online : Bool
  summary : Summary
deriving DecidableEq, Repr

/-- The fallback summary written on RPC failure:
summary = &visor.Summary{PubKey: pk} — only the identity populated. -/
def summaryFallback (pk : PubKey) : Summary := ⟨pk, 0⟩

/-- getVisors' fan-out body, as a function of the registry snapshot taken
by ranging over hv.visors and of an oracle giving each visor's Summary RPC
outcome. Each goroutine writes exactly slot i of the pre-sized slice
(summaries[i] = ...), and wg.Wait() joins before the slice is read, so the
slice after the join equals this per-index map: on RPC error the slot is
Online=false with the fallback summary, otherwise Online=true with the
returned payload. -/
def getVisors (snapshot : List (PubKey × VisorConn))
    (oracle : PubKey → Except String Summary) : List SummaryResp :=
  snapshot.map (fun e =>
    match oracle e.1 with
    | .error _ => ⟨e.2.addr, false, summaryFallback e.1⟩
    | .ok s => ⟨e.2.addr, true, s⟩)

/-- Whether a snapshot entry's Summary RPC succeeds under the oracle. -/
def rpcOk (oracle : PubKey → Except String Summary)
    (e : PubKey × VisorConn) : Bool :=
  match oracle e.1 with
  | .ok _ => true
  | .error _ => false

/-- Claim C3: over N snapshot entries of which M fail their Summary RPC,
the aggregate has exactly N entries; every failed entry is marked offline
with only the node identity populated (the fallback summary), every
successful entry is marked online with the full payload, and the counts of
online and offline entries are exactly N−M and M — a per-node failure
never aborts the batch. -/
theorem scatter_gather_isolation (snapshot : List (PubKey × VisorConn))
    (oracle : PubKey → Except String Summary) :
    (getVisors snapshot oracle).length = snapshot.length ∧
    (∀ (i : Nat) (pk : PubKey) (c : VisorConn), snapshot[i]? = some (pk, c) →
      (∀ e, oracle pk = .error e →
        (getVisors snapshot oracle)[i]? = some ⟨c.addr, false, summaryFallback pk⟩) ∧
      (∀ s, oracle pk = .ok s →
        (getVisors snapshot oracle)[i]? = some ⟨c.addr, true, s⟩)) ∧
    (getVisors snapshot oracle).countP (fun r => r.online)
      = snapshot.countP (rpcOk oracle) ∧
    (getVisors snapshot oracle).countP (fun r => !r.online)
      = snapshot.countP (fun e => !rpcOk oracle e) := by
  refine ⟨List.length_map _ _, ?_, ?_, ?_⟩
  · intro i pk c hi
    constructor
    · intro e he
      simp [getVisors, List.getElem?_map, hi, he]
    · intro s hs
      simp [getVisors, List.getElem?_map, hi, hs]
  · rw [getVisors, List.countP_map]
    apply List.countP_congr
    intro e _
    simp only [Function.comp]
    cases h : oracle e.1 <;> simp [rpcOk, h]
  · rw [getVisors, List.countP_map]
    apply List.countP_congr
    intro e _
    simp only [Function.comp]
    cases h : oracle e.1 <;> simp [rpcOk, h]

/-- Witness for C3: three visors of which the middle one fails — 3 slots,
slot 1 offline with the fallback, slots 0 and 2 online, counts 2 and 1. -/
theorem scatter_gather_isolation_witness :
    ((getVisors [(1, ⟨⟨1, 10⟩, 0⟩), (2, ⟨⟨2, 20⟩, 1⟩), (3, ⟨⟨3, 30⟩, 2⟩)]
        (fun pk => if pk = 2 then .error "rpc failed" else .ok ⟨pk, 7⟩)).length = 3) ∧
    ((getVisors [(1, ⟨⟨1, 10⟩, 0⟩), (2, ⟨⟨2, 20⟩, 1⟩), (3, ⟨⟨3, 30⟩, 2⟩)]
        (fun pk => if pk = 2 then .error "rpc failed" else .ok ⟨pk, 7⟩))[1]?
      = some ⟨⟨2, 20⟩, false, summaryFallback 2⟩) ∧
    ((getVisors [(1, ⟨⟨1, 10⟩, 0⟩), (2, ⟨⟨2, 20⟩, 1⟩), (3, ⟨⟨3, 30⟩, 2⟩)]
        (fun pk => if pk = 2 then .error "rpc failed" else .ok ⟨pk, 7⟩))[0]?
      = some ⟨⟨1, 10⟩, true, ⟨1, 7⟩⟩) := by
  refine ⟨?_, ?_, ?_⟩
  · exact (scatter_gather_isolation
      [(1, ⟨⟨1, 10⟩, 0⟩), (2, ⟨⟨2, 20⟩, 1⟩), (3, ⟨⟨3, 30⟩, 2⟩)]
      (fun pk => if pk = 2 then .error "rpc failed" else .ok ⟨pk, 7⟩)).1
  · exact (((scatter_gather_isolation
      [(1, ⟨⟨1, 10⟩, 0⟩), (2, ⟨⟨2, 20⟩, 1⟩), (3, ⟨⟨3, 30⟩, 2⟩)]
      (fun pk => if pk = 2 then .error "rpc failed" else .ok ⟨pk, 7⟩)).2.1
      1 2 ⟨⟨2, 20⟩, 1⟩ (by decide)).1 "rpc failed" rfl)
  · exact (((scatter_gather_isolation
      [(1, ⟨⟨1, 10⟩, 0⟩), (2, ⟨⟨2, 20⟩, 1⟩), (3, ⟨⟨3, 30⟩, 2⟩)]
      (fun pk => if pk = 2 then .error "rpc failed" else .ok ⟨pk, 7⟩)).2.1
      0 1 ⟨⟨1, 10⟩, 0⟩ (by decide)).2 ⟨1, 7⟩ rfl)

/-- A valid order in which a Go for-range loop may enumerate a map with
the given entry set: the Go spec leaves map iteration order unspecified
(and the runtime randomizes it), so any permutation of the entries is a
possible snapshot order for one run of getVisors. -/
def validIterOrder (entries order : List (PubKey × VisorConn)) : Prop :=
  order.Perm entries

instance (entries order : List (PubKey × VisorConn)) :
    Decidable (validIterOrder entries order) :=
  inferInstanceAs (Decidable (order.Perm entries))

/-- Counterexample to C8: with visors A=1, B=2, C=3 registered (in that
insertion order), both [A,B,C] and [B,A,C] are valid map iteration orders
for a run of getVisors, and the two runs produce their result entries in
different orders — so the output order is NOT the same on every run, and
in particular need not be insertion order A,B,C. -/
theorem fanout_order_not_run_invariant :
    regLookup (applyInserts [(1, ⟨⟨1, 10⟩, 0⟩), (2, ⟨⟨2, 20⟩, 1⟩), (3, ⟨⟨3, 30⟩, 2⟩)]) 1
      = some ⟨⟨1, 10⟩, 0⟩ ∧
    regLookup (applyInserts [(1, ⟨⟨1, 10⟩, 0⟩), (2, ⟨⟨2, 20⟩, 1⟩), (3, ⟨⟨3, 30⟩, 2⟩)]) 2
      = some ⟨⟨2, 20⟩, 1⟩ ∧
    regLookup (applyInserts [(1, ⟨⟨1, 10⟩, 0⟩), (2, ⟨⟨2, 20⟩, 1⟩), (3, ⟨⟨3, 30⟩, 2⟩)]) 3
      = some ⟨⟨3, 30⟩, 2⟩ ∧
    validIterOrder [(1, ⟨⟨1, 10⟩, 0⟩), (2, ⟨⟨2, 20⟩, 1⟩), (3, ⟨⟨3, 30⟩, 2⟩)]
      [(1, ⟨⟨1, 10⟩, 0⟩), (2, ⟨⟨2, 20⟩, 1⟩), (3, ⟨⟨3, 30⟩, 2⟩)] ∧
    validIterOrder [(1, ⟨⟨1, 10⟩, 0⟩), (2, ⟨⟨2, 20⟩, 1⟩), (3, ⟨⟨3, 30⟩, 2⟩)]
      [(2, ⟨⟨2, 20⟩, 1⟩), (1, ⟨⟨1, 10⟩, 0⟩), (3, ⟨⟨3, 30⟩, 2⟩)] ∧
    getVisors [(1, ⟨⟨1, 10⟩, 0⟩), (2, ⟨⟨2, 20⟩, 1⟩), (3, ⟨⟨3, 30⟩, 2⟩)]
        (fun pk => .ok ⟨pk, 7⟩)
      ≠ getVisors [(2, ⟨⟨2, 20⟩, 1⟩), (1, ⟨⟨1, 10⟩, 0⟩), (3, ⟨⟨3, 30⟩, 2⟩)]
        (fun pk => .ok ⟨pk, 7⟩) := by
  refine ⟨rfl, rfl, rfl, by decide, by decide, by decide⟩

/-- Claim C8, amended: within one batch the output order is deterministic
relative to the snapshot taken at fan-out start — slot i always holds the
outcome for snapshot entry i (same address, and on failure the fallback
carries snapshot entry i's key) — but the snapshot order itself is the Go
map's unspecified iteration order, so different runs over the same
registry may order their entries differently and the order need not match
insertion order. -/
theorem fanout_order_matches_snapshot (snapshot : List (PubKey × VisorConn))
    (oracle : PubKey → Except String Summary) (i : Nat) :
    (getVisors snapshot oracle)[i]?.map (fun r => r.tcpAddr)
      = (snapshot[i]?.map (fun e => e.2.addr)) ∧
    (getVisors snapshot oracle)[i]?.map (fun r => r.online)
      = (snapshot[i]?.map (fun e => rpcOk oracle e)) := by
  constructor
  · rw [getVisors, List.getElem?_map]
    cases snapshot[i]? with
    | none => rfl
    | some e => cases h : oracle e.1 <;> simp [h]
  · rw [getVisors, List.getElem?_map]
    cases snapshot[i]? with
    | none => rfl
    | some e => cases h : oracle e.1 <;> simp [h, rpcOk]

/-- Registry-relevant events of one operation, in program order: acquire
or release of hv.mu (read or write side), and the issue of a remote RPC
call. -/
inductive Ev where
  | rLock
  | rUnlock
  | wLock
  | wUnlock
  | rpc (callName : String)
deriving DecidableEq, Repr

/-- Number of lock acquisitions currently held after d previous ones,
walking the trace; returns true when some rpc event occurs while the
held count is positive. -/
def rpcUnderLockFrom : Nat → List Ev → Bool
  | _, [] => false
  | d, .rLock :: es => rpcUnderLockFrom (d + 1) es
  | d, .wLock :: es => rpcUnderLockFrom (d + 1) es
  | d, .rUnlock :: es => rpcUnderLockFrom (d - 1) es
  | d, .wUnlock :: es => rpcUnderLockFrom (d - 1) es
  | d, .rpc _ :: es => decide (0 < d) || rpcUnderLockFrom d es

/-- Whether an operation's trace issues an RPC call while hv.mu is held. -/
def rpcUnderLock (tr : List Ev) : Bool := rpcUnderLockFrom 0 tr

/-- Trace of one accept-loop iteration's registry interaction in ServeRPC:
the VisorConn (RPC client object included) is constructed before the lock
is taken — constructing it performs no remote call — then
hv.mu.Lock(); hv.visors[pk] = conn; hv.mu.Unlock(). -/
def serveRPCInsertTrace : List Ev := [.wLock, .wUnlock]

/-- Trace of hv.visorConn(pk): hv.mu.RLock(); map read; hv.mu.RUnlock().
No RPC call at all. -/
def visorConnTrace : List Ev := [.rLock, .rUnlock]

/-- Trace of a single-visor handler (e.g. getVisor/getUptime): the node
lookup through visorConn, then the remote call through ctx.RPC after the
lock was already released. -/
def singleVisorCallTrace (callName : String) : List Ev :=
  visorConnTrace ++ [.rpc callName]

/-- Trace of getVisors' registry interaction for a snapshot with the given
keys: hv.mu.RLock() precedes the goroutine launches, every goroutine's
c.RPC.Summary() call therefore happens after the RLock, wg.Wait() orders
every Summary call before hv.mu.RUnlock(). The RPC events are listed in
snapshot order; any linearization places all of them strictly between
rLock and rUnlock, which is all rpcUnderLock inspects. -/
def getVisorsTrace (pks : List PubKey) : List Ev :=
  .rLock :: (pks.map (fun pk => Ev.rpc ("Summary " ++ toString pk)) ++ [.rUnlock])

/-- Counterexample to C2: the fleet-summary fan-out getVisors does issue
its Summary RPC calls while the registry's read lock is held — the RUnlock
only happens after wg.Wait(), i.e. after every RPC call completed — so it
is not the case that every RPC-invoking operation releases the registry
lock before its first RPC call. -/
theorem fanout_rpc_under_lock :
    rpcUnderLock (getVisorsTrace [1]) = true := by
  decide

/-- Claim C2, amended: the accept-loop insert and the single-visor lookup
path keep the lock scope strictly to the map access — no RPC is issued
under the lock there — but getVisors holds the read lock across all of its
Summary RPC calls, releasing it only after every call has completed (the
unlock is the final event of its trace); consequently a slow remote
Summary call delays registry writers (accept-loop inserts), though not
concurrent readers. -/
theorem lock_rpc_discipline (callName : String) (pks : List PubKey) :
    rpcUnderLock serveRPCInsertTrace = false ∧
    rpcUnderLock visorConnTrace = false ∧
    rpcUnderLock (singleVisorCallTrace callName) = false ∧
    (pks ≠ [] → rpcUnderLock (getVisorsTrace pks) = true) ∧
    (getVisorsTrace pks).getLast? = some .rUnlock := by
  refine ⟨rfl, rfl, rfl, ?_, ?_⟩
  · intro hne
    cases pks with
    | nil => exact absurd rfl hne
    | cons p ps =>
      simp [getVisorsTrace, rpcUnderLock, rpcUnderLockFrom]
  · show (Ev.rLock :: (_ ++ [Ev.rUnlock])).getLast? = some Ev.rUnlock
    rw [← List.cons_append]
    exact List.getLast?_concat _

/-- Witness for C2's amended theorem at a concrete call name and a
one-visor snapshot. -/
theorem lock_rpc_discipline_witness :
    rpcUnderLock (getVisorsTrace [1]) = true ∧
    (getVisorsTrace [1]).getLast? = some .rUnlock := by
  exact ⟨(lock_rpc_discipline "Uptime" [1]).2.2.2.1 (by decide),
    (lock_rpc_discipline "Uptime" [1]).2.2.2.2⟩

/-- visor.HealthInfo: opaque payload of the Health RPC. -/
structure HealthInfo where
  info : Nat
deriving DecidableEq, Repr

/-- VisorHealth: the response body built by getHealth — a status code plus
the embedded (possibly absent) HealthInfo. -/
structure VisorHealth where
  status : Nat
  healthInfo : Option HealthInfo
deriving DecidableEq, Repr

/-- healthTimeout = 5 * time.Second, measured here in seconds. -/
def healthTimeout : Nat := 5

/-- The response of the completed-call branch of getHealth's select: on
RPC error vh.Status = 500 with no payload, on success vh.Status = 200 with
the payload; either way the HTTP status written is 200. The pair is
(HTTP status, body). -/
def healthCallResp (res : Except String HealthInfo) : Nat × VisorHealth :=
  match res with
  | .error _ => (200, ⟨500, none⟩)
  | .ok h => (200, ⟨200, some h⟩)

/-- The response of the timeout branch of getHealth's select: HTTP 408
with body status 408 and no payload. -/
def healthTimeoutResp : Nat × VisorHealth := (408, ⟨408, none⟩)

/-- getHealth's select between resCh (the background goroutine's Health
result, ready at time t seconds) and tCh = time.After(healthTimeout): the
earlier-ready channel's branch runs. t is the completion time of the
remote call; res its outcome. -/
def getHealthResp (t : Nat) (res : Except String HealthInfo) :
    Nat × VisorHealth :=
  if t < healthTimeout then healthCallResp res else healthTimeoutResp

/-- Claim C4: if the Health call completes at t < 5s the engine responds
with that call's result (success payload or failure status 500), and if
t ≥ 5s it responds with the request-timeout outcome — which is a distinct
outcome from a RemoteFailure — regardless of the late call's eventual
result. -/
theorem health_single_call_timeout (t : Nat) (res : Except String HealthInfo) :
    (t < healthTimeout → getHealthResp t res = healthCallResp res) ∧
    (healthTimeout ≤ t → getHealthResp t res = healthTimeoutResp) ∧
    healthTimeoutResp ≠ healthCallResp res := by
  refine ⟨?_, ?_, ?_⟩
  · intro h
    simp [getHealthResp, h]
  · intro h
    simp [getHealthResp, Nat.not_lt.mpr h]
  · cases res <;> simp [healthTimeoutResp, healthCallResp]

/-- Witness for C4: a call completing at 3s yields its own (failed)
result, a call completing at 10s yields the timeout outcome even though
the late call succeeded. -/
theorem health_single_call_timeout_witness :
    getHealthResp 3 (.error "down") = healthCallResp (.error "down") ∧
    getHealthResp 10 (.ok ⟨1⟩) = healthTimeoutResp := by
  exact ⟨(health_single_call_timeout 3 (.error "down")).1 (by decide),
    (health_single_call_timeout 10 (.ok ⟨1⟩)).2.1 (by decide)⟩

/-- Capacity of resCh in getHealth: make(chan healthRes) — unbuffered. -/
def resChCapacity : Nat := 0

/-- Whether a Go channel send completes: a send on a channel completes
exactly when either buffer capacity is free or a receive is (eventually)
performed to pair with it. -/
def sendCompletes (cap futureReceives : Nat) : Bool :=
  decide (0 < cap) || decide (0 < futureReceives)

/-- Number of receives ever performed on resCh after getHealth's select
resolves: the completed-call branch consumed one receive; in the timeout
branch the handler returns and resCh is never read again. timedOut is true
when the tCh branch won the select. -/
def resChReceives (timedOut : Bool) : Nat :=
  if timedOut then 0 else 1

/-- Whether getHealth's background goroutine (which ends with
resCh <- healthRes{hi, err}) can run to completion. -/
def healthSenderCompletes (timedOut : Bool) : Bool :=
  sendCompletes resChCapacity (resChReceives timedOut)

/-- Claim C9, failing input: when the deadline fires first (timedOut), the
background goroutine's send on the unbuffered resCh never completes — no
receive is ever performed after the timeout branch and the channel has no
buffer — so the goroutine blocks forever instead of finishing with its
result discarded. (When the call wins the race, the sender does finish.)
The spec requires the no-leak behavior; the code leaks. -/
theorem health_background_sender_blocks :
    healthSenderCompletes true = false ∧ healthSenderCompletes false = true := by
  decide

/-- uuid.UUID: an opaque parsed transport identifier. -/
abbrev UUID := Nat

/-- visor.AppState: an application descriptor; the code inspects only the
Name field. -/
structure AppState where
  name : String
  rest : Nat
deriving DecidableEq, Repr

/-- visor.TransportSummary: opaque transport descriptor fetched by ID. -/
structure TransportSummary where
  id : UUID
  rest : Nat
deriving DecidableEq, Repr

/-- The remote RPC calls the resolver chain and the route/log handlers can
issue through ctx.RPC. -/
inductive RpcCall where
  | appsCall
  | transportCall (tid : UUID)
  | routingRuleCall (rid : Nat)
  | removeRoutingRuleCall (rid : Nat)
  | logsSinceCall (appName : String)
deriving DecidableEq, Repr

/-- Response bodies written through httputil.WriteJSON, restricted to the
shapes the modelled handlers produce. -/
inductive Body where
  | errMsg (msg : String)
  | appVal (a : AppState)
  | tpVal (t : TransportSummary)
  | ruleVal (key rule : Nat) (withSummary : Bool)
  | boolVal (b : Bool)
  | logsVal (lastTs : String) (logs : List String)
deriving DecidableEq, Repr

/-- An HTTP response: status code plus JSON body. -/
structure HttpResp where
  status : Nat
  body : Body
deriving DecidableEq, Repr

/-- The path/query parameters of one request, each already passed through
its (external) parser: pkParam is the result of cipher.PubKey's
UnmarshalText on the pk segment (none when malformed), tidParam the result
of uuid.Parse on the tid segment (none when malformed), summaryQuery the
result of httputil.BoolFromQuery (none when malformed), ridParam the
result of strconv.ParseUint(rid, 10, 32) (none on any parse failure; a
successful parse is a decimal value below 2^32 by the bitSize argument). -/
structure Request where
  pkParam : Option PubKey
  appParam : String
  tidParam : Option UUID
  ridParam : Option Nat
  summaryQuery : Option Bool

/-- ridFromParam: wraps strconv.ParseUint(param, 10, 32), replacing every
parse failure by the fixed error text. -/
def ridFromParam (ridParse : Option Nat) : Except String Nat :=
  match ridParse with
  | some n => .ok n
  | none => .error "invalid route ID provided"

/-- The message of visor.ErrNotFound (external to this file's source); the
code compares err.Error() against it by string equality. -/
def errNotFoundMsg : String := "not found"

/-- Outcomes of the remote calls a single request may issue, one oracle
field per ctx.RPC method used by the modelled handlers. -/
structure RpcOracle where
  apps : Except String (List AppState)
  transport : UUID → Except String TransportSummary
  routingRule : Nat → Except String Nat
  removeRoutingRule : Nat → Except String Unit
  logsSince : String → Except String (List String)

/-- httpCtx: the request context grown by the resolver chain — the
embedded VisorConn plus the optional App, Tp and RtKey fields (Go zero
value of RtKey is 0). -/
structure HttpCtx where
  conn : VisorConn
  app : Option AppState
  tp : Option TransportSummary
  rtKey : Nat
deriving DecidableEq, Repr

/-- The observable outcome of one resolver stage: the context when the
stage succeeded (ok=true in the source), the HTTP response the stage wrote
when it failed, and the RPC calls it issued, in order. -/
structure StageOut where
  ctx : Option HttpCtx
  resp : Option HttpResp
  calls : List RpcCall
deriving DecidableEq, Repr

/-- hv.visorCtx: parse the pk path parameter (400 on failure), look the
visor up in the registry (404 when absent), else produce the context with
the connection handle attached. No RPC call. -/
def visorCtx (reg : Registry) (req : Request) : StageOut :=
  match req.pkParam with
  | none => ⟨none, some ⟨400, .errMsg "malformed public key"⟩, []⟩
  | some pk =>
    match regLookup reg pk with
    | none => ⟨none, some ⟨404, .errMsg "visor not found"⟩, []⟩
    | some conn => ⟨some ⟨conn, none, none, 0⟩, none, []⟩

/-- hv.appCtx: run visorCtx and stop on its failure; else call ctx.RPC
Apps (500 on RPC error), scan for the first app whose Name equals the app
path parameter, 404 when none matches. -/
def appCtx (reg : Registry) (req : Request) (o : RpcOracle) : StageOut :=
  match (visorCtx reg req).ctx with
  | none => visorCtx reg req
  | some ctx =>
    match o.apps with
    | .error e => ⟨none, some ⟨500, .errMsg e⟩, [.appsCall]⟩
    | .ok apps =>
      match apps.find? (fun a => a.name == req.appParam) with
      | some a => ⟨some { ctx with app := some a }, none, [.appsCall]⟩
      | none => ⟨none, some ⟨404, .errMsg "app not found on this visor"⟩, [.appsCall]⟩

/-- hv.tpCtx: run visorCtx and stop on its failure; else parse the tid
path parameter (400 on failure, before any RPC), fetch the transport by ID
and map an error whose message equals visor.ErrNotFound's to 404,
any other RPC error to 500. -/
def tpCtx (reg : Registry) (req : Request) (o : RpcOracle) : StageOut :=
  match (visorCtx reg req).ctx with
  | none => visorCtx reg req
  | some ctx =>
    match req.tidParam with
    | none => ⟨none, some ⟨400, .errMsg "invalid transport ID"⟩, []⟩
    | some tid =>
      match o.transport tid with
      | .error e =>
        if e = errNotFoundMsg then
          ⟨none, some ⟨404, .errMsg "transport of ID is not found"⟩, [.transportCall tid]⟩
        else
          ⟨none, some ⟨500, .errMsg e⟩, [.transportCall tid]⟩
      | .ok t => ⟨some { ctx with tp := some t }, none, [.transportCall tid]⟩

/-- hv.routeCtx: run visorCtx and stop on its failure; else parse the rid
path parameter (400 on failure); no RPC call in this stage. -/
def routeCtx (reg : Registry) (req : Request) : StageOut :=
  match (visorCtx reg req).ctx with
  | none => visorCtx reg req
  | some ctx =>
    match ridFromParam req.ridParam with
    | .error e => ⟨none, some ⟨400, .errMsg e⟩, []⟩
    | .ok rid => ⟨some { ctx with rtKey := rid }, none, []⟩

/-- hv.withCtx: run the values function; only when it reports ok does the
handler run. The pair is (response written, RPC calls issued). -/
def withCtx (s : StageOut) (h : HttpCtx → HttpResp × List RpcCall) :
    Option HttpResp × List RpcCall :=
  match s.ctx with
  | some ctx => (some (h ctx).1, s.calls ++ (h ctx).2)
  | none => (s.resp, s.calls)

/-- hv.getRoute: route context, then the summary query flag (400 on
failure), then ctx.RPC.RoutingRule — ANY error is written as HTTP 404 with
the error itself as body; success is 200 with the rule response. -/
def getRoute (reg : Registry) (req : Request) (o : RpcOracle) :
    Option HttpResp × List RpcCall :=
  withCtx (routeCtx reg req) (fun ctx =>
    match req.summaryQuery with
    | none => (⟨400, .errMsg "invalid summary query"⟩, [])
    | some q =>
      match o.routingRule ctx.rtKey with
      | .error e => (⟨404, .errMsg e⟩, [.routingRuleCall ctx.rtKey])
      | .ok rule => (⟨200, .ruleVal ctx.rtKey rule q⟩, [.routingRuleCall ctx.rtKey]))

/-- hv.deleteRoute: route context, then ctx.RPC.RemoveRoutingRule — ANY
error is written as HTTP 404 with the error itself as body; success is 200
with body true. -/
def deleteRoute (reg : Registry) (req : Request) (o : RpcOracle) :
    Option HttpResp × List RpcCall :=
  withCtx (routeCtx reg req) (fun ctx =>
    match o.removeRoutingRule ctx.rtKey with
    | .error e => (⟨404, .errMsg e⟩, [.removeRoutingRuleCall ctx.rtKey])
    | .ok _ => (⟨200, .boolVal true⟩, [.removeRoutingRuleCall ctx.rtKey]))

/-- The body of hv.appLogsSince once the app context resolved: call
ctx.RPC.LogsSince (500 with the error on failure); an empty log list is
answered with HTTP 500 and the error text "no new available logs"; a
non-empty list with HTTP 200, the logs, and the timestamp extracted from
the last entry by app.TimestampFromLog (external, modelled by tsOf). -/
def appLogsSinceBody (appName : String) (o : RpcOracle)
    (tsOf : String → String) : HttpResp × List RpcCall :=
  match o.logsSince appName with
  | .error e => (⟨500, .errMsg e⟩, [.logsSinceCall appName])
  | .ok [] => (⟨500, .errMsg "no new available logs"⟩, [.logsSinceCall appName])
  | .ok (x :: l) =>
    (⟨200, .logsVal (tsOf ((x :: l).getLast (List.cons_ne_nil x l))) (x :: l)⟩,
      [.logsSinceCall appName])

/-- hv.appLogsSince: app context through withCtx, then the handler body on
ctx.App.Name. appCtx always populates App on success; the none branch is
unreachable. -/
def appLogsSince (reg : Registry) (req : Request) (o : RpcOracle)
    (tsOf : String → String) : Option HttpResp × List RpcCall :=
  withCtx (appCtx reg req o) (fun ctx =>
    match ctx.app with
    | some a => appLogsSinceBody a.name o tsOf
    | none => (⟨500, .errMsg "nil app"⟩, []))

theorem visorCtx_calls_nil (reg : Registry) (req : Request) :
    (visorCtx reg req).calls = [] := by
  unfold visorCtx
  cases req.pkParam with
  | none => rfl
  | some pk =>
    dsimp only
    cases regLookup reg pk <;> rfl

theorem visorCtx_none_resp_isSome (reg : Registry) (req : Request)
    (h : (visorCtx reg req).ctx = none) :
    (visorCtx reg req).resp.isSome = true := by
  unfold visorCtx at h ⊢
  cases hpk : req.pkParam with
  | none => rfl
  | some pk =>
    dsimp only
    cases hl : regLookup reg pk with
    | none => rfl
    | some conn =>
      rw [hpk] at h
      dsimp only at h
      rw [hl] at h
      simp at h

theorem appCtx_of_visor_fail (reg : Registry) (req : Request) (o : RpcOracle)
    (h : (visorCtx reg req).ctx = none) :
    appCtx reg req o = visorCtx reg req := by
  unfold appCtx
  rw [h]

theorem tpCtx_of_visor_fail (reg : Registry) (req : Request) (o : RpcOracle)
    (h : (visorCtx reg req).ctx = none) :
    tpCtx reg req o = visorCtx reg req := by
  unfold tpCtx
  rw [h]

theorem routeCtx_of_visor_fail (reg : Registry) (req : Request)
    (h : (visorCtx reg req).ctx = none) :
    routeCtx reg req = visorCtx reg req := by
  unfold routeCtx
  rw [h]

/-- Claim C5: when the node stage fails (malformed or unknown public key),
the node stage itself has written the response, the app/transport/route
stages return that same outcome having issued no RPC call, and no handler
runs under withCtx (the composed handler writes exactly the node stage's
response with an empty call list); likewise a malformed transport ID
yields HTTP 400 from tpCtx with no RPC call issued. -/
theorem resolver_short_circuit (reg : Registry) (req : Request) (o : RpcOracle) :
    ((visorCtx reg req).ctx = none →
      (visorCtx reg req).resp.isSome = true ∧
      appCtx reg req o = visorCtx reg req ∧
      tpCtx reg req o = visorCtx reg req ∧
      routeCtx reg req = visorCtx reg req ∧
      (∀ h, withCtx (appCtx reg req o) h = ((visorCtx reg req).resp, [])) ∧
      (∀ h, withCtx (tpCtx reg req o) h = ((visorCtx reg req).resp, [])) ∧
      (∀ h, withCtx (routeCtx reg req) h = ((visorCtx reg req).resp, []))) ∧
    (req.tidParam = none →
      (tpCtx reg req o).calls = [] ∧
      ((visorCtx reg req).ctx.isSome = true →
        (tpCtx reg req o).resp = some ⟨400, .errMsg "invalid transport ID"⟩)) := by
  constructor
  · intro hnone
    have hcalls := visorCtx_calls_nil reg req
    have happ := appCtx_of_visor_fail reg req o hnone
    have htp := tpCtx_of_visor_fail reg req o hnone
    have hroute := routeCtx_of_visor_fail reg req hnone
    refine ⟨visorCtx_none_resp_isSome reg req hnone, happ, htp, hroute, ?_, ?_, ?_⟩
    · intro h
      rw [happ]
      unfold withCtx
      rw [hnone, hcalls]
    · intro h
      rw [htp]
      unfold withCtx
      rw [hnone, hcalls]
    · intro h
      rw [hroute]
      unfold withCtx
      rw [hnone, hcalls]
  · intro htid
    cases hc : (visorCtx reg req).ctx with
    | none =>
      rw [tpCtx_of_visor_fail reg req o hc]
      exact ⟨visorCtx_calls_nil reg req, by simp [hc]⟩
    | some ctx =>
      constructor
      · unfold tpCtx
        rw [hc, htid]
      · intro _
        unfold tpCtx
        rw [hc, htid]

/-- A concrete RPC oracle for the closed instances below: one app named
chat, every remote call succeeding. -/
def witOracle : RpcOracle :=
  ⟨.ok [⟨"chat", 0⟩], fun t => .ok ⟨t, 0⟩, fun _ => .ok 5, fun _ => .ok (),
    fun _ => .ok ["line one"]⟩

/-- Witness for C5: a request whose pk is absent from the registry — the
node stage 404s, the app stage equals it and issues no call, the composed
app-logs endpoint answers with that 404 and an empty call list; and a
request with a malformed tid on a registered visor — 400, no calls. -/
theorem resolver_short_circuit_witness :
    appCtx emptyRegistry ⟨some 9, "chat", none, some 7, some true⟩ witOracle
      = visorCtx emptyRegistry ⟨some 9, "chat", none, some 7, some true⟩ ∧
    (∀ h, withCtx (appCtx emptyRegistry ⟨some 9, "chat", none, some 7, some true⟩ witOracle) h
      = (some ⟨404, .errMsg "visor not found"⟩, [])) ∧
    (tpCtx (applyInserts [(1, ⟨⟨1, 10⟩, 0⟩)]) ⟨some 1, "chat", none, some 7, some true⟩ witOracle).calls
      = [] ∧
    (tpCtx (applyInserts [(1, ⟨⟨1, 10⟩, 0⟩)]) ⟨some 1, "chat", none, some 7, some true⟩ witOracle).resp
      = some ⟨400, .errMsg "invalid transport ID"⟩ := by
  have h1 := (resolver_short_circuit emptyRegistry
    ⟨some 9, "chat", none, some 7, some true⟩ witOracle).1 rfl
  have h2 := (resolver_short_circuit (applyInserts [(1, ⟨⟨1, 10⟩, 0⟩)])
    ⟨some 1, "chat", none, some 7, some true⟩ witOracle).2 rfl
  exact ⟨h1.2.1, fun h => h1.2.2.2.2.1 h, h2.1, h2.2 rfl⟩

/-- Claim C6: at the transport stage, an RPC error whose message equals
the domain not-found sentinel maps to HTTP 404, and any other RPC error
from the transport fetch maps to HTTP 500 with the error preserved. -/
theorem tp_notfound_sentinel_mapping (reg : Registry) (req : Request)
    (o : RpcOracle) (ctx : HttpCtx) (tid : UUID)
    (hctx : (visorCtx reg req).ctx = some ctx)
    (htid : req.tidParam = some tid) :
    (o.transport tid = .error errNotFoundMsg →
      tpCtx reg req o
        = ⟨none, some ⟨404, .errMsg "transport of ID is not found"⟩,
            [.transportCall tid]⟩) ∧
    (∀ e, o.transport tid = .error e → e ≠ errNotFoundMsg →
      tpCtx reg req o = ⟨none, some ⟨500, .errMsg e⟩, [.transportCall tid]⟩) := by
  constructor
  · intro he
    unfold tpCtx
    rw [hctx]
    dsimp only
    rw [htid]
    dsimp only
    rw [he]
    dsimp only
    rw [if_pos rfl]
  · intro e he hne
    unfold tpCtx
    rw [hctx]
    dsimp only
    rw [htid]
    dsimp only
    rw [he]
    dsimp only
    rw [if_neg hne]

/-- Oracle whose transport fetch fails with the not-found sentinel. -/
def tpNotFoundOracle : RpcOracle :=
  { witOracle with transport := fun _ => .error errNotFoundMsg }

/-- Oracle whose transport fetch fails with a non-sentinel error. -/
def tpBrokenOracle : RpcOracle :=
  { witOracle with transport := fun _ => .error "connection reset" }

/-- Witness for C6: on a registered visor with a well-formed tid, the
sentinel error yields 404 and a non-sentinel error yields 500. -/
theorem tp_notfound_sentinel_mapping_witness :
    tpCtx (applyInserts [(1, ⟨⟨1, 10⟩, 0⟩)])
        ⟨some 1, "chat", some 4, some 7, some true⟩ tpNotFoundOracle
      = ⟨none, some ⟨404, .errMsg "transport of ID is not found"⟩,
          [.transportCall 4]⟩ ∧
    tpCtx (applyInserts [(1, ⟨⟨1, 10⟩, 0⟩)])
        ⟨some 1, "chat", some 4, some 7, some true⟩ tpBrokenOracle
      = ⟨none, some ⟨500, .errMsg "connection reset"⟩, [.transportCall 4]⟩ := by
  constructor
  · exact (tp_notfound_sentinel_mapping (applyInserts [(1, ⟨⟨1, 10⟩, 0⟩)])
      ⟨some 1, "chat", some 4, some 7, some true⟩ tpNotFoundOracle
      ⟨⟨⟨1, 10⟩, 0⟩, none, none, 0⟩ 4 rfl rfl).1 rfl
  · exact (tp_notfound_sentinel_mapping (applyInserts [(1, ⟨⟨1, 10⟩, 0⟩)])
      ⟨some 1, "chat", some 4, some 7, some true⟩ tpBrokenOracle
      ⟨⟨⟨1, 10⟩, 0⟩, none, none, 0⟩ 4 rfl rfl).2 "connection reset" rfl
      (by simp [errNotFoundMsg])

/-- Oracle whose routing-rule calls fail with a non-sentinel error. -/
def routeBrokenOracle : RpcOracle :=
  { witOracle with
      routingRule := fun _ => .error "connection reset",
      removeRoutingRule := fun _ => .error "connection reset" }

/-- Counterexample to C7: in the routing-rule lookup and removal handlers
an RPC error that does NOT match the not-found sentinel is still written
as HTTP 404 (the not-found outcome), not as a generic 500 upstream-error —
getRoute and deleteRoute pass every error to WriteJSON with
http.StatusNotFound, with no sentinel check at all. -/
theorem route_error_always_notfound :
    ("connection reset" ≠ errNotFoundMsg) ∧
    (getRoute (applyInserts [(1, ⟨⟨1, 10⟩, 0⟩)])
        ⟨some 1, "chat", none, some 7, some true⟩ routeBrokenOracle).1
      = some ⟨404, .errMsg "connection reset"⟩ ∧
    (deleteRoute (applyInserts [(1, ⟨⟨1, 10⟩, 0⟩)])
        ⟨some 1, "chat", none, some 7, some true⟩ routeBrokenOracle).1
      = some ⟨404, .errMsg "connection reset"⟩ := by
  refine ⟨by simp [errNotFoundMsg], rfl, rfl⟩

/-- Claim C7, amended: in the routing-rule lookup and removal handlers,
EVERY RPC error — whether or not it matches the not-found sentinel — is
surfaced as the not-found outcome (HTTP 404) with the original error text
preserved as the body; the sentinel/generic distinction exists only in the
transport stage. -/
theorem route_rpc_error_maps_notfound (reg : Registry) (req : Request)
    (o : RpcOracle) (ctx : HttpCtx) (q : Bool)
    (hctx : (routeCtx reg req).ctx = some ctx)
    (hq : req.summaryQuery = some q) :
    (∀ e, o.routingRule ctx.rtKey = .error e →
      (getRoute reg req o).1 = some ⟨404, .errMsg e⟩) ∧
    (∀ e, o.removeRoutingRule ctx.rtKey = .error e →
      (deleteRoute reg req o).1 = some ⟨404, .errMsg e⟩) := by
  constructor
  · intro e he
    unfold getRoute withCtx
    rw [hctx]
    dsimp only
    rw [hq]
    dsimp only
    rw [he]
  · intro e he
    unfold deleteRoute withCtx
    rw [hctx]
    dsimp only
    rw [he]

/-- Witness for C7's amended theorem: concrete 404s with the original
error text from both handlers. -/
theorem route_rpc_error_maps_notfound_witness :
    (getRoute (applyInserts [(2, ⟨⟨2, 20⟩, 1⟩)])
        ⟨some 2, "chat", none, some 9, some false⟩ routeBrokenOracle).1
      = some ⟨404, .errMsg "connection reset"⟩ ∧
    (deleteRoute (applyInserts [(2, ⟨⟨2, 20⟩, 1⟩)])
        ⟨some 2, "chat", none, some 9, some false⟩ routeBrokenOracle).1
      = some ⟨404, .errMsg "connection reset"⟩ := by
  exact ⟨(route_rpc_error_maps_notfound (applyInserts [(2, ⟨⟨2, 20⟩, 1⟩)])
      ⟨some 2, "chat", none, some 9, some false⟩ routeBrokenOracle
      ⟨⟨⟨2, 20⟩, 1⟩, none, none, 9⟩ false rfl rfl).1 "connection reset" rfl,
    (route_rpc_error_maps_notfound (applyInserts [(2, ⟨⟨2, 20⟩, 1⟩)])
      ⟨some 2, "chat", none, some 9, some false⟩ routeBrokenOracle
      ⟨⟨⟨2, 20⟩, 1⟩, none, none, 9⟩ false rfl rfl).2 "connection reset" rfl⟩

/-- Claim C10: when the app-logs handler's LogsSince call succeeds with an
empty list, the handler answers HTTP 500 with the error text
"no new available logs" instead of an empty success; a non-empty list
yields HTTP 200 with the logs and the timestamp taken from the last
entry. -/
theorem applogs_empty_list_500 (reg : Registry) (req : Request)
    (o : RpcOracle) (tsOf : String → String) (ctx : HttpCtx) (a : AppState)
    (hctx : (appCtx reg req o).ctx = some ctx)
    (ha : ctx.app = some a) :
    (o.logsSince a.name = .ok [] →
      (appLogsSince reg req o tsOf).1
        = some ⟨500, .errMsg "no new available logs"⟩) ∧
    (∀ x l, o.logsSince a.name = .ok (x :: l) →
      (appLogsSince reg req o tsOf).1
        = some ⟨200, .logsVal (tsOf ((x :: l).getLast (List.cons_ne_nil x l)))
            (x :: l)⟩) := by
  constructor
  · intro hlogs
    unfold appLogsSince withCtx
    rw [hctx]
    dsimp only
    rw [ha]
    dsimp only
    unfold appLogsSinceBody
    rw [hlogs]
  · intro x l hlogs
    unfold appLogsSince withCtx
    rw [hctx]
    dsimp only
    rw [ha]
    dsimp only
    unfold appLogsSinceBody
    rw [hlogs]

/-- Oracle whose LogsSince call succeeds with no entries. -/
def emptyLogsOracle : RpcOracle :=
  { witOracle with logsSince := fun _ => .ok [] }

/-- Witness for C10: on a registered visor running app chat, an empty
successful log fetch is answered 500/"no new available logs"; the
one-entry fetch is answered 200 with that entry and its timestamp. -/
theorem applogs_empty_list_500_witness :
    (appLogsSince (applyInserts [(1, ⟨⟨1, 10⟩, 0⟩)])
        ⟨some 1, "chat", none, some 7, some true⟩ emptyLogsOracle (fun s => s)).1
      = some ⟨500, .errMsg "no new available logs"⟩ ∧
    (appLogsSince (applyInserts [(1, ⟨⟨1, 10⟩, 0⟩)])
        ⟨some 1, "chat", none, some 7, some true⟩ witOracle (fun s => s)).1
      = some ⟨200, .logsVal "line one" ["line one"]⟩ := by
  exact ⟨(applogs_empty_list_500 (applyInserts [(1, ⟨⟨1, 10⟩, 0⟩)])
      ⟨some 1, "chat", none, some 7, some true⟩ emptyLogsOracle (fun s => s)
      ⟨⟨⟨1, 10⟩, 0⟩, some ⟨"chat", 0⟩, none, 0⟩ ⟨"chat", 0⟩ rfl rfl).1 rfl,
    (applogs_empty_list_500 (applyInserts [(1, ⟨⟨1, 10⟩, 0⟩)])
      ⟨some 1, "chat", none, some 7, some true⟩ witOracle (fun s => s)
      ⟨⟨⟨1, 10⟩, 0⟩, some ⟨"chat", 0⟩, none, 0⟩ ⟨"chat", 0⟩ rfl rfl).2
      "line one" [] rfl⟩

end Hypervisor
